import Mathlib

/-!
Shallow embedding of the two Flask services of kessel-in-a-box
(`src/services/insights-host-inventory/app.py` and
`src/services/insights-rbac/app.py`) and proofs about the dual-write /
CDC reconciliation behaviour their handlers implement.

Each HTTP handler is translated into a pure Lean function.  Nondeterministic
inputs of the Python code (the generated UUID, `datetime.now()`, the
environment, whether the database raises, and the outcome of the remote
Kessel HTTP call) are explicit parameters.  The handler returns the HTTP
status, the JSON body, the post-state of the local database, and an ordered
trace of the observable actions it performed (local commit, remote push
start/end, response), so that temporal claims can be stated as facts about
the trace.
-/

/-- JSON values, as passed around by the Flask handlers. -/
inductive JsonVal where
  | null : JsonVal
  | bool : Bool → JsonVal
  | num : Int → JsonVal
  | str : String → JsonVal
  | arr : List JsonVal → JsonVal
  | obj : List (String × JsonVal) → JsonVal
deriving Repr, BEq

/-- A JSON request body: the dict produced by `request.get_json()`. -/
abbrev JsonDict := List (String × JsonVal)

/-- `data.get(k)` on a Python dict: the value of the first matching key. -/
def jget (d : JsonDict) (k : String) : Option JsonVal :=
  List.lookup k d

/-- Python truthiness of a value obtained by `data.get(k)`: `None`, JSON
`null`, `False`, `0`, the empty string, the empty list and the empty object
are falsy, everything else truthy.  This is what `if not display_name:`
tests. -/
def truthy : Option JsonVal → Bool
  | none => false
  | some .null => false
  | some (.bool b) => b
  | some (.num n) => n != 0
  | some (.str s) => !s.isEmpty
  | some (.arr xs) => !xs.isEmpty
  | some (.obj kvs) => !kvs.isEmpty

/-- The process environment, as read by `os.getenv`. -/
abbrev Env := String → Option String

/-- `os.getenv('KESSEL_INVENTORY_API_URL', 'http://kessel-inventory-api:8000')`. -/
def kesselUrl (env : Env) : String :=
  (env "KESSEL_INVENTORY_API_URL").getD "http://kessel-inventory-api:8000"

/-- An outbound HTTP request to the Kessel inventory API, with the timeout
passed to `requests.post` / `requests.delete` (in seconds). -/
inductive KesselRequest where
  | post (url : String) (body : JsonDict) (timeout : Nat) : KesselRequest
  | delete (url : String) (timeout : Nat) : KesselRequest
deriving Repr, BEq

/-- The timeout the request was issued with. -/
def KesselRequest.timeout : KesselRequest → Nat
  | .post _ _ t => t
  | .delete _ t => t

/-- The keys of the JSON body of a POST push (empty for DELETE). -/
def KesselRequest.bodyKeys : KesselRequest → List String
  | .post _ b _ => b.map Prod.fst
  | .delete _ _ => []

/-- The outcome of one remote HTTP call: a response with some status code,
or a raised `requests.exceptions.RequestException` (connection error or
timeout). -/
inductive RemoteOutcome where
  | status (code : Nat) : RemoteOutcome
  | exn : RemoteOutcome
deriving Repr, BEq

/-- The observable actions of one handler invocation, in order. -/
inductive Act where
  | dbCommit : Act
  | pushStart (req : KesselRequest) : Act
  | pushEnd (outcome : RemoteOutcome) : Act
  | respond (status : Nat) : Act
deriving Repr, BEq

/-- Whether an action is the start of a remote push. -/
def Act.isPushStart : Act → Bool
  | .pushStart _ => true
  | _ => false

/-- Whether an action is the completion of a remote push. -/
def Act.isPushEnd : Act → Bool
  | .pushEnd _ => true
  | _ => false

/-- Whether an action is the production of the HTTP response. -/
def Act.isRespond : Act → Bool
  | .respond _ => true
  | _ => false

/-- Number of remote pushes started during a handler invocation. -/
def countPushes (tr : List Act) : Nat :=
  (tr.filter Act.isPushStart).length

/-- `true` when the response is produced strictly before every remote push
completes (the position of the first `respond` precedes the position of any
`pushEnd`). -/
def respondBeforePushEnd (tr : List Act) : Bool :=
  match tr.findIdx? Act.isRespond, tr.findIdx? Act.isPushEnd with
  | some i, some j => i < j
  | some _, none => true
  | none, _ => false

/-- A row of `inventory.hosts`, with the columns the service inserts.
Timestamps are abstract `Nat` ticks standing for `datetime.now()`. -/
structure Host where
  id : String
  canonical_facts : JsonVal
  display_name : JsonVal
  workspace_id : JsonVal
  created_at : Nat
  updated_at : Nat
deriving Repr, BEq

/-- The JSON object for a host row, as returned by `RETURNING *` and then
`jsonify(dict(...))`. -/
def hostRow (h : Host) : JsonDict :=
  [("id", .str h.id), ("canonical_facts", h.canonical_facts),
   ("display_name", h.display_name), ("workspace_id", h.workspace_id),
   ("created_at", .num h.created_at), ("updated_at", .num h.updated_at)]

/-- A row of `inventory.host_groups`. -/
structure HostGroup where
  id : String
  name : JsonVal
  workspace_id : JsonVal
  created_at : Nat
deriving Repr, BEq

/-- The JSON object for a host-group row. -/
def groupRow (g : HostGroup) : JsonDict :=
  [("id", .str g.id), ("name", g.name), ("workspace_id", g.workspace_id),
   ("created_at", .num g.created_at)]

/-- The kind of a captured change, as Debezium classifies WAL records. -/
inductive ChangeOp where
  | create : ChangeOp
  | update : ChangeOp
  | delete : ChangeOp
deriving Repr, BEq

/-- Modelled from the spec: the Change Log entry derived from a committed
mutation.  The repository ships no outbox table; its change stream is the
Postgres WAL tailed by Debezium (configured outside `src/`), so a change
record comes into existence exactly when a transaction commits.  The entry
carries the table, the operation, the entity id and the after-image of the
row (none for a DELETE). -/
structure ChangeEvent where
  table : String
  op : ChangeOp
  entityId : String
  after : Option JsonDict
deriving Repr, BEq

/-- The local store of the insights-host-inventory service, together with
its change stream: the committed rows and the WAL-derived change log. -/
structure InventoryDB where
  hosts : List (String × Host)
  groups : List (String × HostGroup)
  log : List ChangeEvent
deriving Repr, BEq

/-- The result of one handler invocation. -/
structure HandlerResult (σ : Type) where
  status : Nat
  body : JsonVal
  db : σ
  trace : List Act
deriving Repr

/-- A JSON error body `{'error': msg}`. -/
def errBody (msg : String) : JsonVal :=
  .obj [("error", .str msg)]

/-- The JSON body of the POST to
`{KESSEL_INVENTORY_URL}/api/inventory/v1beta2/resources` made by
`create_host` after its commit, exactly the dict literal of the source
(`workspace_id or '00000000-…-001'` is Python truthiness on the value). -/
def createHostPushBody (host_id : String) (display_name workspace_id canonical_facts : JsonVal) :
    JsonDict :=
  [("resource_type", .str "hbi/host"),
   ("resource_id", .str host_id),
   ("workspace_id",
     if truthy (some workspace_id) then workspace_id
     else .str "00000000-0000-0000-0000-000000000001"),
   ("metadata", .obj [("display_name", display_name),
                      ("canonical_facts", canonical_facts)])]

/-- The remote push request issued by `create_host`: `requests.post(..., timeout=5)`. -/
def createHostPush (env : Env) (host_id : String)
    (display_name workspace_id canonical_facts : JsonVal) : KesselRequest :=
  .post (kesselUrl env ++ "/api/inventory/v1beta2/resources")
    (createHostPushBody host_id display_name workspace_id canonical_facts) 5

/-- The remote push request issued by `delete_host`:
`requests.delete(..., timeout=5)`. -/
def deleteHostPush (env : Env) (host_id : String) : KesselRequest :=
  .delete (kesselUrl env ++ "/api/inventory/v1/resources/hbi/host/" ++ host_id) 5

/-- `POST /api/v1/hosts` (`create_host` in
`src/services/insights-host-inventory/app.py`).

Order of the source: read fields, validate `display_name` (400), INSERT and
commit (a DB error raises and is answered 500 with nothing committed), then
a best-effort `requests.post` to Kessel inside `try/except
RequestException` — a non-2xx status only logs a warning and an exception
only logs a warning — and finally `return jsonify(host), 201`.

`host_id` is the generated UUID, `now` is `datetime.now()`, `dbOk` is
whether the INSERT+commit succeeds, `remote` the outcome of the push. -/
def create_host (env : Env) (data : JsonDict) (host_id : String) (now : Nat)
    (dbOk : Bool) (remote : RemoteOutcome) (db : InventoryDB) :
    HandlerResult InventoryDB :=
  let display_name := jget data "display_name"
  let canonical_facts := (jget data "canonical_facts").getD (.obj [])
  let workspace_id := (jget data "workspace_id").getD .null
  if !truthy display_name then
    { status := 400, body := errBody "display_name is required", db := db,
      trace := [.respond 400] }
  else if !dbOk then
    { status := 500, body := errBody "database error", db := db,
      trace := [.respond 500] }
  else
    let h : Host :=
      { id := host_id, canonical_facts := canonical_facts,
        display_name := display_name.getD .null, workspace_id := workspace_id,
        created_at := now, updated_at := now }
    let db' : InventoryDB :=
      { db with hosts := (host_id, h) :: db.hosts,
                log := db.log ++
                  [⟨"inventory.hosts", .create, host_id, some (hostRow h)⟩] }
    let req := createHostPush env host_id (display_name.getD .null)
      workspace_id canonical_facts
    { status := 201, body := .obj (hostRow h), db := db',
      trace := [.dbCommit, .pushStart req, .pushEnd remote, .respond 201] }

/-- `DELETE /api/v1/hosts/<host_id>` (`delete_host`).

Order of the source: DELETE row (a DB error is answered 500), `rowcount == 0`
answers 404 with no commit, otherwise commit, then a best-effort
`requests.delete` inside `try/except RequestException`, then `return '', 204`. -/
def delete_host (env : Env) (host_id : String) (dbOk : Bool)
    (remote : RemoteOutcome) (db : InventoryDB) : HandlerResult InventoryDB :=
  if !dbOk then
    { status := 500, body := errBody "database error", db := db,
      trace := [.respond 500] }
  else if (List.lookup host_id db.hosts).isNone then
    { status := 404, body := errBody "Host not found", db := db,
      trace := [.respond 404] }
  else
    let db' : InventoryDB :=
      { db with hosts := db.hosts.filter (fun p => p.1 != host_id),
                log := db.log ++ [⟨"inventory.hosts", .delete, host_id, none⟩] }
    { status := 204, body := .str "", db := db',
      trace := [.dbCommit, .pushStart (deleteHostPush env host_id),
                .pushEnd remote, .respond 204] }

/-- `PATCH /api/v1/hosts/<host_id>` (`update_host`).

Order of the source: build the SET list from the keys present in the body
(`'display_name' in data`, `'canonical_facts' in data` — key presence, not
truthiness); an empty SET list answers 400 `No fields to update` before any
query runs; then UPDATE (a DB error is answered 500), `rowcount == 0`
answers 404 with no commit; otherwise commit and return the row, 200.
No remote push happens on this handler. -/
def update_host (host_id : String) (data : JsonDict) (now : Nat)
    (dbOk : Bool) (db : InventoryDB) : HandlerResult InventoryDB :=
  let hasDN := (jget data "display_name").isSome
  let hasCF := (jget data "canonical_facts").isSome
  if !hasDN && !hasCF then
    { status := 400, body := errBody "No fields to update", db := db,
      trace := [.respond 400] }
  else if !dbOk then
    { status := 500, body := errBody "database error", db := db,
      trace := [.respond 500] }
  else
    match List.lookup host_id db.hosts with
    | none =>
      { status := 404, body := errBody "Host not found", db := db,
        trace := [.respond 404] }
    | some h =>
      let h' : Host :=
        { h with
          display_name := if hasDN then (jget data "display_name").getD .null
                          else h.display_name,
          canonical_facts := if hasCF then (jget data "canonical_facts").getD .null
                             else h.canonical_facts,
          updated_at := now }
      let db' : InventoryDB :=
        { db with
          hosts := db.hosts.map (fun p => if p.1 == host_id then (p.1, h') else p),
          log := db.log ++
            [⟨"inventory.hosts", .update, host_id, some (hostRow h')⟩] }
      { status := 200, body := .obj (hostRow h'), db := db',
        trace := [.dbCommit, .respond 200] }

/-- `POST /api/v1/host-groups` (`create_host_group`).  Validates `name`
(400), inserts and commits, returns the row with 201.  No remote push. -/
def create_host_group (data : JsonDict) (group_id : String) (now : Nat)
    (dbOk : Bool) (db : InventoryDB) : HandlerResult InventoryDB :=
  let name := jget data "name"
  let workspace_id := (jget data "workspace_id").getD .null
  if !truthy name then
    { status := 400, body := errBody "name is required", db := db,
      trace := [.respond 400] }
  else if !dbOk then
    { status := 500, body := errBody "database error", db := db,
      trace := [.respond 500] }
  else
    let g : HostGroup :=
      { id := group_id, name := name.getD .null, workspace_id := workspace_id,
        created_at := now }
    let db' : InventoryDB :=
      { db with groups := (group_id, g) :: db.groups,
                log := db.log ++
                  [⟨"inventory.host_groups", .create, group_id, some (groupRow g)⟩] }
    { status := 201, body := .obj (groupRow g), db := db',
      trace := [.dbCommit, .respond 201] }

/-- A row of `rbac.workspaces`. -/
structure Workspace where
  id : String
  name : JsonVal
  description : JsonVal
  created_at : Nat
  updated_at : Nat
deriving Repr, BEq

/-- The JSON object for a workspace row. -/
def workspaceRow (w : Workspace) : JsonDict :=
  [("id", .str w.id), ("name", w.name), ("description", w.description),
   ("created_at", .num w.created_at), ("updated_at", .num w.updated_at)]

/-- A row of `rbac.roles`. -/
structure Role where
  id : String
  name : JsonVal
  workspace_id : JsonVal
  created_at : Nat
  updated_at : Nat
deriving Repr, BEq

/-- The JSON object for a role row. -/
def roleRow (r : Role) : JsonDict :=
  [("id", .str r.id), ("name", r.name), ("workspace_id", r.workspace_id),
   ("created_at", .num r.created_at), ("updated_at", .num r.updated_at)]

/-- The local store of the insights-rbac service with its WAL-derived
change log. -/
structure RbacDB where
  workspaces : List (String × Workspace)
  roles : List (String × Role)
  log : List ChangeEvent
deriving Repr, BEq

/-- `POST /api/v1/workspaces` (`create_workspace` in
`src/services/insights-rbac/app.py`).  Validates `name` (400), inserts and
commits, returns the row with 201.  The handler makes no HTTP call to any
remote service: the source only logs that CDC will propagate the change. -/
def create_workspace (data : JsonDict) (workspace_id : String) (now : Nat)
    (dbOk : Bool) (db : RbacDB) : HandlerResult RbacDB :=
  let name := jget data "name"
  let description := (jget data "description").getD (.str "")
  if !truthy name then
    { status := 400, body := errBody "name is required", db := db,
      trace := [.respond 400] }
  else if !dbOk then
    { status := 500, body := errBody "database error", db := db,
      trace := [.respond 500] }
  else
    let w : Workspace :=
      { id := workspace_id, name := name.getD .null, description := description,
        created_at := now, updated_at := now }
    let db' : RbacDB :=
      { db with workspaces := (workspace_id, w) :: db.workspaces,
                log := db.log ++
                  [⟨"rbac.workspaces", .create, workspace_id, some (workspaceRow w)⟩] }
    { status := 201, body := .obj (workspaceRow w), db := db',
      trace := [.dbCommit, .respond 201] }

/-- `DELETE /api/v1/workspaces/<workspace_id>` (`delete_workspace`).
DELETE row (DB error answers 500), `rowcount == 0` answers 404 with no
commit, otherwise commit and return `'', 204`.  No remote call. -/
def delete_workspace (workspace_id : String) (dbOk : Bool) (db : RbacDB) :
    HandlerResult RbacDB :=
  if !dbOk then
    { status := 500, body := errBody "database error", db := db,
      trace := [.respond 500] }
  else if (List.lookup workspace_id db.workspaces).isNone then
    { status := 404, body := errBody "Workspace not found", db := db,
      trace := [.respond 404] }
  else
    let db' : RbacDB :=
      { db with workspaces := db.workspaces.filter (fun p => p.1 != workspace_id),
                log := db.log ++ [⟨"rbac.workspaces", .delete, workspace_id, none⟩] }
    { status := 204, body := .str "", db := db',
      trace := [.dbCommit, .respond 204] }

/-- `POST /api/v1/roles` (`create_role`).  Validates `name` and
`workspace_id` (`if not name or not workspace_id:` — both truthiness), 400
when either is falsy; inserts and commits; returns the row with 201.  No
remote call. -/
def create_role (data : JsonDict) (role_id : String) (now : Nat)
    (dbOk : Bool) (db : RbacDB) : HandlerResult RbacDB :=
  let name := jget data "name"
  let workspace_id := jget data "workspace_id"
  if !truthy name || !truthy workspace_id then
    { status := 400, body := errBody "name and workspace_id are required", db := db,
      trace := [.respond 400] }
  else if !dbOk then
    { status := 500, body := errBody "database error", db := db,
      trace := [.respond 500] }
  else
    let r : Role :=
      { id := role_id, name := name.getD .null,
        workspace_id := workspace_id.getD .null,
        created_at := now, updated_at := now }
    let db' : RbacDB :=
      { db with roles := (role_id, r) :: db.roles,
                log := db.log ++
                  [⟨"rbac.roles", .create, role_id, some (roleRow r)⟩] }
    { status := 201, body := .obj (roleRow r), db := db',
      trace := [.dbCommit, .respond 201] }

/-- The state of the remote Kessel graph: for each resource id, the stored
payload, if any. -/
abbrev RemoteState := String → Option JsonDict

/-- The last path segment of a URL — the `<host_id>` at the end of the
DELETE URL `{base}/api/inventory/v1/resources/hbi/host/{host_id}`. -/
def lastSegment (url : String) : String :=
  (url.splitOn "/").getLastD ""

/-- Modelled from the spec: the remote Kessel inventory API, whose service
code lives outside `src/`.  The spec describes it as an idempotent store
keyed by resource id: a POST of a resource payload upserts the resource
under its `resource_id`, and a DELETE removes the resource addressed by the
URL.  The requests the services actually construct carry no version field,
so the model has none. -/
def remoteApply (s : RemoteState) : KesselRequest → RemoteState
  | .post _ body _ =>
    match jget body "resource_id" with
    | some (.str rid) => fun k => if k = rid then some body else s k
    | _ => s
  | .delete url _ =>
    fun k => if k = lastSegment url then none else s k

/-- Looking a key up in a JSON object (none on any other JSON value). -/
def JsonVal.getKey : JsonVal → String → Option JsonVal
  | .obj kvs, k => jget kvs k
  | _, _ => none

/-- C6: every local mutation and its change-log entry advance as a single
atomic unit — either the request fails and the store (rows and log alike)
is exactly as before, or the row is inserted and exactly its change event
is appended, never one without the other.  Shown for `create_host` and
`create_workspace`, the two handlers the claim cites, over every input
(invalid body, database failure, any remote outcome). -/
theorem mutation_and_change_event_atomic
    (env : Env) (data dataW : JsonDict) (host_id wid : String) (now nowW : Nat)
    (dbOk dbOkW : Bool) (remote : RemoteOutcome) (idb : InventoryDB) (rdb : RbacDB) :
    ((create_host env data host_id now dbOk remote idb).db = idb
      ∨ ∃ h : Host,
        (create_host env data host_id now dbOk remote idb).db.hosts
            = (host_id, h) :: idb.hosts
        ∧ (create_host env data host_id now dbOk remote idb).db.log
            = idb.log ++ [⟨"inventory.hosts", .create, host_id, some (hostRow h)⟩])
    ∧ ((create_workspace dataW wid nowW dbOkW rdb).db = rdb
      ∨ ∃ w : Workspace,
        (create_workspace dataW wid nowW dbOkW rdb).db.workspaces
            = (wid, w) :: rdb.workspaces
        ∧ (create_workspace dataW wid nowW dbOkW rdb).db.log
            = rdb.log ++ [⟨"rbac.workspaces", .create, wid, some (workspaceRow w)⟩]) := by
  constructor
  · cases hdn : truthy (jget data "display_name") with
    | false => left; simp [create_host, hdn]
    | true =>
      cases dbOk with
      | false => left; simp [create_host, hdn]
      | true =>
        right
        refine ⟨⟨host_id, (jget data "canonical_facts").getD (.obj []),
          (jget data "display_name").getD .null,
          (jget data "workspace_id").getD .null, now, now⟩, ?_, ?_⟩ <;>
          simp [create_host, hdn]
  · cases hn : truthy (jget dataW "name") with
    | false => left; simp [create_workspace, hn]
    | true =>
      cases dbOkW with
      | false => left; simp [create_workspace, hn]
      | true =>
        right
        refine ⟨⟨wid, (jget dataW "name").getD .null,
          (jget dataW "description").getD (.str ""), nowW, nowW⟩, ?_, ?_⟩ <;>
          simp [create_workspace, hn]

/-- C7: a create with the required field missing from the body is answered
400 with an error body, the store is untouched and no commit happens:
`create_host` without `display_name`, `create_workspace` without `name`,
`create_role` without `name` or without `workspace_id`. -/
theorem missing_required_field_rejected
    (env : Env) (d1 d2 d3 : JsonDict) (host_id wid rid : String) (now : Nat)
    (dbOk : Bool) (remote : RemoteOutcome) (idb : InventoryDB) (rdb : RbacDB)
    (h1 : jget d1 "display_name" = none)
    (h2 : jget d2 "name" = none)
    (h3 : jget d3 "name" = none ∨ jget d3 "workspace_id" = none) :
    ((create_host env d1 host_id now dbOk remote idb).status = 400
      ∧ (create_host env d1 host_id now dbOk remote idb).body
          = errBody "display_name is required"
      ∧ (create_host env d1 host_id now dbOk remote idb).db = idb
      ∧ (create_host env d1 host_id now dbOk remote idb).trace = [.respond 400])
    ∧ ((create_workspace d2 wid now dbOk rdb).status = 400
      ∧ (create_workspace d2 wid now dbOk rdb).db = rdb
      ∧ (create_workspace d2 wid now dbOk rdb).trace = [.respond 400])
    ∧ ((create_role d3 rid now dbOk rdb).status = 400
      ∧ (create_role d3 rid now dbOk rdb).db = rdb
      ∧ (create_role d3 rid now dbOk rdb).trace = [.respond 400]) := by
  refine ⟨?_, ?_, ?_⟩
  · simp [create_host, h1, truthy, errBody]
  · simp [create_workspace, h2, truthy, errBody]
  · rcases h3 with h3 | h3 <;> simp [create_role, h3, truthy, errBody]

/-- Witness for `missing_required_field_rejected` at concrete inputs. -/
theorem missing_required_field_rejected_witness :
    jget [("foo", JsonVal.str "bar")] "display_name" = none
    ∧ jget ([] : JsonDict) "name" = none
    ∧ (jget [("name", JsonVal.str "admin")] "name" = none
        ∨ jget [("name", JsonVal.str "admin")] "workspace_id" = none)
    ∧ ((create_host (fun _ => none) [("foo", JsonVal.str "bar")] "h1" 0 true
          RemoteOutcome.exn ⟨[], [], []⟩).status = 400
      ∧ (create_host (fun _ => none) [("foo", JsonVal.str "bar")] "h1" 0 true
          RemoteOutcome.exn ⟨[], [], []⟩).body = errBody "display_name is required"
      ∧ (create_host (fun _ => none) [("foo", JsonVal.str "bar")] "h1" 0 true
          RemoteOutcome.exn ⟨[], [], []⟩).db = (⟨[], [], []⟩ : InventoryDB)
      ∧ (create_host (fun _ => none) [("foo", JsonVal.str "bar")] "h1" 0 true
          RemoteOutcome.exn ⟨[], [], []⟩).trace = [.respond 400])
    ∧ ((create_workspace [] "w1" 0 true ⟨[], [], []⟩).status = 400
      ∧ (create_workspace [] "w1" 0 true ⟨[], [], []⟩).db = (⟨[], [], []⟩ : RbacDB)
      ∧ (create_workspace [] "w1" 0 true ⟨[], [], []⟩).trace = [.respond 400])
    ∧ ((create_role [("name", JsonVal.str "admin")] "r1" 0 true ⟨[], [], []⟩).status = 400
      ∧ (create_role [("name", JsonVal.str "admin")] "r1" 0 true ⟨[], [], []⟩).db
          = (⟨[], [], []⟩ : RbacDB)
      ∧ (create_role [("name", JsonVal.str "admin")] "r1" 0 true ⟨[], [], []⟩).trace
          = [.respond 400]) := by
  have h := missing_required_field_rejected (fun _ => none)
    [("foo", JsonVal.str "bar")] [] [("name", JsonVal.str "admin")]
    "h1" "w1" "r1" 0 true RemoteOutcome.exn ⟨[], [], []⟩ ⟨[], [], []⟩
    (by rfl) (by rfl) (Or.inr (by rfl))
  exact ⟨by rfl, by rfl, Or.inr (by rfl), h.1, h.2.1, h.2.2⟩

/-- C8: an UPDATE or DELETE aimed at a nonexistent entity is answered 404
with an error body and no commit occurs, leaving the store exactly as it
was: `update_host` (with at least one updatable field in the body),
`delete_host` and `delete_workspace`. -/
theorem mutate_nonexistent_rejected_404
    (env : Env) (host_id wsid : String) (d : JsonDict) (now : Nat)
    (remote : RemoteOutcome) (idb : InventoryDB) (rdb : RbacDB)
    (hhost : List.lookup host_id idb.hosts = none)
    (hws : List.lookup wsid rdb.workspaces = none)
    (hfields : (jget d "display_name").isSome = true
        ∨ (jget d "canonical_facts").isSome = true) :
    ((update_host host_id d now true idb).status = 404
      ∧ (update_host host_id d now true idb).body = errBody "Host not found"
      ∧ (update_host host_id d now true idb).db = idb
      ∧ (update_host host_id d now true idb).trace = [.respond 404])
    ∧ ((delete_host env host_id true remote idb).status = 404
      ∧ (delete_host env host_id true remote idb).body = errBody "Host not found"
      ∧ (delete_host env host_id true remote idb).db = idb
      ∧ (delete_host env host_id true remote idb).trace = [.respond 404])
    ∧ ((delete_workspace wsid true rdb).status = 404
      ∧ (delete_workspace wsid true rdb).body = errBody "Workspace not found"
      ∧ (delete_workspace wsid true rdb).db = rdb
      ∧ (delete_workspace wsid true rdb).trace = [.respond 404]) := by
  refine ⟨?_, ?_, ?_⟩
  · rcases hfields with hf | hf <;> simp [update_host, hhost, hf, errBody]
  · simp [delete_host, hhost, errBody]
  · simp [delete_workspace, hws, errBody]

/-- Witness for `mutate_nonexistent_rejected_404` at concrete inputs. -/
theorem mutate_nonexistent_rejected_404_witness :
    List.lookup "h9" (⟨[], [], []⟩ : InventoryDB).hosts = none
    ∧ List.lookup "w9" (⟨[], [], []⟩ : RbacDB).workspaces = none
    ∧ ((jget [("display_name", JsonVal.str "new")] "display_name").isSome = true
        ∨ (jget [("display_name", JsonVal.str "new")] "canonical_facts").isSome = true)
    ∧ (update_host "h9" [("display_name", JsonVal.str "new")] 0 true ⟨[], [], []⟩).status = 404
    ∧ (delete_host (fun _ => none) "h9" true RemoteOutcome.exn ⟨[], [], []⟩).status = 404
    ∧ (delete_workspace "w9" true ⟨[], [], []⟩).status = 404 := by
  have h := mutate_nonexistent_rejected_404 (fun _ => none) "h9" "w9"
    [("display_name", JsonVal.str "new")] 0 RemoteOutcome.exn
    ⟨[], [], []⟩ ⟨[], [], []⟩ (by rfl) (by rfl) (Or.inl (by rfl))
  exact ⟨by rfl, by rfl, Or.inl (by rfl), h.1.1, h.2.1.1, h.2.2.1⟩

/-- C10: a PATCH body containing neither `display_name` nor
`canonical_facts` is answered 400 `No fields to update` with no database
mutation at all — for every store (the target need not exist), every
non-empty body without those keys and every database disposition. -/
theorem update_no_fields_rejected
    (host_id : String) (d : JsonDict) (now : Nat) (dbOk : Bool) (idb : InventoryDB)
    (h1 : jget d "display_name" = none)
    (h2 : jget d "canonical_facts" = none) :
    (update_host host_id d now dbOk idb).status = 400
    ∧ (update_host host_id d now dbOk idb).body = errBody "No fields to update"
    ∧ (update_host host_id d now dbOk idb).db = idb
    ∧ (update_host host_id d now dbOk idb).trace = [.respond 400] := by
  simp [update_host, h1, h2, errBody]

/-- Witness for `update_no_fields_rejected`: a non-empty body without the
two updatable keys, against a store in which the host does not exist. -/
theorem update_no_fields_rejected_witness :
    jget [("stale_timestamp", JsonVal.str "now")] "display_name" = none
    ∧ jget [("stale_timestamp", JsonVal.str "now")] "canonical_facts" = none
    ∧ (update_host "h9" [("stale_timestamp", JsonVal.str "now")] 0 true
        ⟨[], [], []⟩).status = 400
    ∧ (update_host "h9" [("stale_timestamp", JsonVal.str "now")] 0 true
        ⟨[], [], []⟩).body = errBody "No fields to update"
    ∧ (update_host "h9" [("stale_timestamp", JsonVal.str "now")] 0 true
        ⟨[], [], []⟩).db = (⟨[], [], []⟩ : InventoryDB) := by
  have h := update_no_fields_rejected "h9" [("stale_timestamp", JsonVal.str "now")]
    0 true ⟨[], [], []⟩ (by rfl) (by rfl)
  exact ⟨by rfl, by rfl, h.1, h.2.1, h.2.2.1⟩

/-- C1: once the local commit has succeeded, the remote push's outcome —
an exception (connection error or timeout) or any non-2xx status — is never
propagated and never rolls the local mutation back: `create_host` still
answers 201 and `delete_host` still answers 204, with the database equal to
the one a fully successful remote push leaves, the committed insert
(respectively delete) intact. -/
theorem remote_failure_never_propagated
    (env : Env) (data : JsonDict) (host_id : String) (now : Nat)
    (remote : RemoteOutcome) (idb : InventoryDB)
    (hid2 : String) (idb2 : InventoryDB)
    (hdn : truthy (jget data "display_name") = true)
    (hex : (List.lookup hid2 idb2.hosts).isSome = true) :
    ((create_host env data host_id now true remote idb).status = 201
      ∧ (create_host env data host_id now true remote idb).db
          = (create_host env data host_id now true (.status 201) idb).db
      ∧ ∃ h : Host, (create_host env data host_id now true remote idb).db.hosts
          = (host_id, h) :: idb.hosts)
    ∧ ((delete_host env hid2 true remote idb2).status = 204
      ∧ (delete_host env hid2 true remote idb2).db
          = (delete_host env hid2 true (.status 200) idb2).db
      ∧ (delete_host env hid2 true remote idb2).db.hosts
          = idb2.hosts.filter (fun p => p.1 != hid2)) := by
  have hnn : (List.lookup hid2 idb2.hosts).isNone = false := by
    cases hval : List.lookup hid2 idb2.hosts with
    | none => rw [hval] at hex; simp at hex
    | some _ => rfl
  refine ⟨⟨?_, ?_, ?_⟩, ?_, ?_, ?_⟩
  · simp [create_host, hdn]
  · simp [create_host, hdn]
  · exact ⟨⟨host_id, (jget data "canonical_facts").getD (.obj []),
      (jget data "display_name").getD .null,
      (jget data "workspace_id").getD .null, now, now⟩, by simp [create_host, hdn]⟩
  · simp [delete_host, hnn]
  · simp [delete_host, hnn]
  · simp [delete_host, hnn]

/-- Witness for `remote_failure_never_propagated`: a valid create against
an unreachable remote (exception) and a delete of an existing host whose
remote push is answered 503. -/
theorem remote_failure_never_propagated_witness :
    truthy (jget [("display_name", JsonVal.str "web-1")] "display_name") = true
    ∧ (List.lookup "h1"
        (⟨[("h1", ⟨"h1", .obj [], .str "web-1", .null, 0, 0⟩)], [], []⟩ :
          InventoryDB).hosts).isSome = true
    ∧ (create_host (fun _ => none) [("display_name", JsonVal.str "web-1")] "h2" 1 true
        RemoteOutcome.exn ⟨[], [], []⟩).status = 201
    ∧ (delete_host (fun _ => none) "h1" true (RemoteOutcome.status 503)
        ⟨[("h1", ⟨"h1", .obj [], .str "web-1", .null, 0, 0⟩)], [], []⟩).status = 204 := by
  have h := remote_failure_never_propagated (fun _ => none)
    [("display_name", JsonVal.str "web-1")] "h2" 1 RemoteOutcome.exn ⟨[], [], []⟩
    "h1" ⟨[("h1", ⟨"h1", .obj [], .str "web-1", .null, 0, 0⟩)], [], []⟩
    (by rfl) (by rfl)
  have h2 := remote_failure_never_propagated (fun _ => none)
    [("display_name", JsonVal.str "web-1")] "h2" 1 (RemoteOutcome.status 503) ⟨[], [], []⟩
    "h1" ⟨[("h1", ⟨"h1", .obj [], .str "web-1", .null, 0, 0⟩)], [], []⟩
    (by rfl) (by rfl)
  exact ⟨by rfl, by rfl, h.1.1, h2.2.1⟩

/-- C2, counterexample: the success response is NOT produced before the
remote push completes.  On a concrete valid create against an entirely
unreachable remote (the push raises), the handler's trace places the push's
completion strictly before the response, so `respondBeforePushEnd` is
false even though the request succeeds with 201. -/
theorem response_awaits_push_completion_cex :
    (create_host (fun _ => none) [("display_name", JsonVal.str "web-1")] "h1" 0 true
      RemoteOutcome.exn ⟨[], [], []⟩).status = 201
    ∧ respondBeforePushEnd
        (create_host (fun _ => none) [("display_name", JsonVal.str "web-1")] "h1" 0 true
          RemoteOutcome.exn ⟨[], [], []⟩).trace = false := by
  exact ⟨by rfl, by rfl⟩

/-- C2 as amended: on every successful write, the local commit strictly
precedes the start of the remote push, and the success response (201 for
create, 204 for delete) is produced whatever the push's outcome — but only
after the synchronous push attempt has completed (or raised/timed out), as
the fixed shape of the trace shows. -/
theorem commit_precedes_push_response_follows
    (env : Env) (data : JsonDict) (host_id : String) (now : Nat)
    (remote : RemoteOutcome) (idb : InventoryDB)
    (hid2 : String) (idb2 : InventoryDB)
    (hdn : truthy (jget data "display_name") = true)
    (hex : (List.lookup hid2 idb2.hosts).isSome = true) :
    (∃ req : KesselRequest,
      (create_host env data host_id now true remote idb).trace
        = [.dbCommit, .pushStart req, .pushEnd remote, .respond 201])
    ∧ (delete_host env hid2 true remote idb2).trace
        = [.dbCommit, .pushStart (deleteHostPush env hid2), .pushEnd remote,
           .respond 204] := by
  have hnn : (List.lookup hid2 idb2.hosts).isNone = false := by
    cases hval : List.lookup hid2 idb2.hosts with
    | none => rw [hval] at hex; simp at hex
    | some _ => rfl
  refine ⟨⟨createHostPush env host_id ((jget data "display_name").getD .null)
    ((jget data "workspace_id").getD .null)
    ((jget data "canonical_facts").getD (.obj [])), ?_⟩, ?_⟩
  · simp [create_host, hdn]
  · simp [delete_host, hnn]

/-- Witness for `commit_precedes_push_response_follows` at concrete
inputs. -/
theorem commit_precedes_push_response_follows_witness :
    truthy (jget [("display_name", JsonVal.str "web-1")] "display_name") = true
    ∧ (List.lookup "h1"
        (⟨[("h1", ⟨"h1", .obj [], .str "web-1", .null, 0, 0⟩)], [], []⟩ :
          InventoryDB).hosts).isSome = true
    ∧ (∃ req : KesselRequest,
        (create_host (fun _ => none) [("display_name", JsonVal.str "web-1")] "h2" 1 true
          RemoteOutcome.exn ⟨[], [], []⟩).trace
          = [.dbCommit, .pushStart req, .pushEnd RemoteOutcome.exn, .respond 201]) := by
  have h := commit_precedes_push_response_follows (fun _ => none)
    [("display_name", JsonVal.str "web-1")] "h2" 1 RemoteOutcome.exn ⟨[], [], []⟩
    "h1" ⟨[("h1", ⟨"h1", .obj [], .str "web-1", .null, 0, 0⟩)], [], []⟩
    (by rfl) (by rfl)
  exact ⟨by rfl, by rfl, h.1⟩

/-- C3, counterexample: the pushes carry no idempotency key.  The JSON body
of a concrete `create_host` push has keys `resource_type`, `resource_id`,
`workspace_id` and `metadata` only — no `version` — and the `delete_host`
push has no body at all. -/
theorem push_carries_no_version_cex :
    ¬ ("version" ∈ (createHostPush (fun _ => none) "h1" (JsonVal.str "web-1")
        JsonVal.null (JsonVal.obj [])).bodyKeys)
    ∧ (createHostPush (fun _ => none) "h1" (JsonVal.str "web-1")
        JsonVal.null (JsonVal.obj [])).bodyKeys
        = ["resource_type", "resource_id", "workspace_id", "metadata"]
    ∧ (deleteHostPush (fun _ => none) "h1").bodyKeys = [] := by
  exact ⟨by decide, by rfl, by rfl⟩

/-- C3 as amended: the services' pushes carry no version, so the remote
graph cannot reject repeats by version; instead, a push is a deterministic
upsert/delete keyed by the resource id, so applying the very same push a
second time to the remote graph (modelled from the spec as an idempotent
store keyed by resource id) leaves the remote state unchanged. -/
theorem push_replay_idempotent (s : RemoteState) (env : Env) (host_id : String)
    (dn wid cf : JsonVal) :
    remoteApply (remoteApply s (createHostPush env host_id dn wid cf))
        (createHostPush env host_id dn wid cf)
      = remoteApply s (createHostPush env host_id dn wid cf)
    ∧ remoteApply (remoteApply s (deleteHostPush env host_id))
        (deleteHostPush env host_id)
      = remoteApply s (deleteHostPush env host_id) := by
  have gen : ∀ (s : RemoteState) (r : KesselRequest),
      remoteApply (remoteApply s r) r = remoteApply s r := by
    intro s r
    cases r with
    | post url body t =>
      cases hrid : jget body "resource_id" with
      | none => simp [remoteApply, hrid]
      | some v =>
        cases v with
        | str rid =>
          funext k
          by_cases hk : k = rid <;> simp [remoteApply, hrid, hk]
        | null => simp [remoteApply, hrid]
        | bool b => simp [remoteApply, hrid]
        | num n => simp [remoteApply, hrid]
        | arr xs => simp [remoteApply, hrid]
        | obj kvs => simp [remoteApply, hrid]
    | delete url t =>
      funext k
      by_cases hk : k = lastSegment url <;> simp [remoteApply, hk]
  exact ⟨gen s _, gen s _⟩

/-- C4, counterexample: a successful create does not return an entity with
version 1 — the returned row has no `version` key at all. -/
theorem create_returns_no_version_cex :
    (create_host (fun _ => none) [("display_name", JsonVal.str "web-1")] "h1" 0 true
      (RemoteOutcome.status 201) ⟨[], [], []⟩).status = 201
    ∧ JsonVal.getKey
        (create_host (fun _ => none) [("display_name", JsonVal.str "web-1")] "h1" 0 true
          (RemoteOutcome.status 201) ⟨[], [], []⟩).body "version" = none := by
  exact ⟨by rfl, by rfl⟩

/-- C4 as amended: entities carry no version column and no version counter
exists.  A successful create returns the inserted row whose keys are
exactly `id`, `canonical_facts`, `display_name`, `workspace_id`,
`created_at` and `updated_at` — no `version` — and a successful update
returns the stored row with the requested fields and `updated_at` (the only
monotonic marker) replaced, again with no `version`. -/
theorem rows_have_no_version_column
    (env : Env) (data d2 : JsonDict) (host_id hid2 : String) (now now2 : Nat)
    (remote : RemoteOutcome) (idb idb2 : InventoryDB) (h0 : Host)
    (hdn : truthy (jget data "display_name") = true)
    (hf : (jget d2 "display_name").isSome = true)
    (hlook : List.lookup hid2 idb2.hosts = some h0) :
    ((create_host env data host_id now true remote idb).status = 201
      ∧ JsonVal.getKey (create_host env data host_id now true remote idb).body
          "version" = none
      ∧ ∃ h : Host,
          (create_host env data host_id now true remote idb).body = .obj (hostRow h)
          ∧ (hostRow h).map Prod.fst
              = ["id", "canonical_facts", "display_name", "workspace_id",
                 "created_at", "updated_at"])
    ∧ ((update_host hid2 d2 now2 true idb2).status = 200
      ∧ JsonVal.getKey (update_host hid2 d2 now2 true idb2).body "version" = none
      ∧ ∃ h : Host, (update_host hid2 d2 now2 true idb2).body = .obj (hostRow h)
          ∧ h.updated_at = now2) := by
  have hbody1 : (create_host env data host_id now true remote idb).body
      = .obj (hostRow ⟨host_id, (jget data "canonical_facts").getD (.obj []),
          (jget data "display_name").getD .null,
          (jget data "workspace_id").getD .null, now, now⟩) := by
    simp [create_host, hdn, hostRow]
  have hbody2 : (update_host hid2 d2 now2 true idb2).body
      = .obj (hostRow { h0 with
          display_name := if (jget d2 "display_name").isSome then
            (jget d2 "display_name").getD .null else h0.display_name,
          canonical_facts := if (jget d2 "canonical_facts").isSome then
            (jget d2 "canonical_facts").getD .null else h0.canonical_facts,
          updated_at := now2 }) := by
    simp [update_host, hf, hlook, hostRow]
  refine ⟨⟨?_, ?_, ?_⟩, ?_, ?_, ?_⟩
  · simp [create_host, hdn]
  · rw [hbody1]; rfl
  · exact ⟨_, hbody1, rfl⟩
  · simp [update_host, hf, hlook]
  · rw [hbody2]; rfl
  · exact ⟨_, hbody2, rfl⟩

/-- Witness for `rows_have_no_version_column` at concrete inputs. -/
theorem rows_have_no_version_column_witness :
    truthy (jget [("display_name", JsonVal.str "web-1")] "display_name") = true
    ∧ (jget [("display_name", JsonVal.str "renamed")] "display_name").isSome = true
    ∧ List.lookup "h1"
        (⟨[("h1", ⟨"h1", .obj [], .str "web-1", .null, 0, 0⟩)], [], []⟩ :
          InventoryDB).hosts = some ⟨"h1", .obj [], .str "web-1", .null, 0, 0⟩
    ∧ JsonVal.getKey
        (create_host (fun _ => none) [("display_name", JsonVal.str "web-1")] "h2" 1 true
          RemoteOutcome.exn ⟨[], [], []⟩).body "version" = none
    ∧ JsonVal.getKey
        (update_host "h1" [("display_name", JsonVal.str "renamed")] 2 true
          ⟨[("h1", ⟨"h1", .obj [], .str "web-1", .null, 0, 0⟩)], [], []⟩).body
          "version" = none := by
  have h := rows_have_no_version_column (fun _ => none)
    [("display_name", JsonVal.str "web-1")] [("display_name", JsonVal.str "renamed")]
    "h2" "h1" 1 2 RemoteOutcome.exn ⟨[], [], []⟩
    ⟨[("h1", ⟨"h1", .obj [], .str "web-1", .null, 0, 0⟩)], [], []⟩
    ⟨"h1", .obj [], .str "web-1", .null, 0, 0⟩ (by rfl) (by rfl) (by rfl)
  exact ⟨by rfl, by rfl, by rfl, h.1.2.1, h.2.2.1⟩

/-- C5, counterexample: a successful workspace create performs no direct
remote push at all — its trace starts no push — refuting the claim that
every mutation of the four entity types is followed by a best-effort push. -/
theorem workspace_create_no_push_cex :
    (create_workspace [("name", JsonVal.str "eng")] "w1" 0 true ⟨[], [], []⟩).status = 201
    ∧ countPushes
        (create_workspace [("name", JsonVal.str "eng")] "w1" 0 true ⟨[], [], []⟩).trace
        = 0 := by
  exact ⟨by rfl, by rfl⟩

/-- C5 as amended: only the host create and host delete handlers attempt a
direct best-effort push after their commit; host update, host-group create,
workspace create, workspace delete and role create never contact the remote
graph on any path, relying solely on CDC. -/
theorem only_host_create_delete_push
    (env : Env) (data dG dW dR dU : JsonDict) (host_id hid2 gid wid wid2 rid : String)
    (now : Nat) (dbOk : Bool) (remote : RemoteOutcome) (idb idb2 idb3 : InventoryDB)
    (rdb : RbacDB)
    (hdn : truthy (jget data "display_name") = true)
    (hex : (List.lookup hid2 idb2.hosts).isSome = true) :
    countPushes (create_host env data host_id now true remote idb).trace = 1
    ∧ countPushes (delete_host env hid2 true remote idb2).trace = 1
    ∧ countPushes (update_host host_id dU now dbOk idb3).trace = 0
    ∧ countPushes (create_host_group dG gid now dbOk idb3).trace = 0
    ∧ countPushes (create_workspace dW wid now dbOk rdb).trace = 0
    ∧ countPushes (delete_workspace wid2 dbOk rdb).trace = 0
    ∧ countPushes (create_role dR rid now dbOk rdb).trace = 0 := by
  have hnn : (List.lookup hid2 idb2.hosts).isNone = false := by
    cases hval : List.lookup hid2 idb2.hosts with
    | none => rw [hval] at hex; simp at hex
    | some _ => rfl
  refine ⟨?_, ?_, ?_, ?_, ?_, ?_, ?_⟩
  · simp [create_host, hdn, countPushes, Act.isPushStart]
  · simp [delete_host, hnn, countPushes, Act.isPushStart]
  · cases h1 : (jget dU "display_name").isSome <;>
      cases h2 : (jget dU "canonical_facts").isSome <;>
      cases dbOk <;>
      cases h3 : List.lookup host_id idb3.hosts <;>
      simp [update_host, countPushes, h1, h2, h3, Act.isPushStart]
  · cases hn : truthy (jget dG "name") <;> cases dbOk <;>
      simp [create_host_group, countPushes, hn, Act.isPushStart]
  · cases hn : truthy (jget dW "name") <;> cases dbOk <;>
      simp [create_workspace, countPushes, hn, Act.isPushStart]
  · cases hl : (List.lookup wid2 rdb.workspaces).isNone <;> cases dbOk <;>
      simp [delete_workspace, countPushes, hl, Act.isPushStart]
  · cases hn : truthy (jget dR "name") <;>
      cases hw : truthy (jget dR "workspace_id") <;> cases dbOk <;>
      simp [create_role, countPushes, hn, hw, Act.isPushStart]

/-- Witness for `only_host_create_delete_push` at concrete inputs. -/
theorem only_host_create_delete_push_witness :
    truthy (jget [("display_name", JsonVal.str "web-1")] "display_name") = true
    ∧ (List.lookup "h1"
        (⟨[("h1", ⟨"h1", .obj [], .str "web-1", .null, 0, 0⟩)], [], []⟩ :
          InventoryDB).hosts).isSome = true
    ∧ countPushes
        (create_host (fun _ => none) [("display_name", JsonVal.str "web-1")] "h2" 1 true
          RemoteOutcome.exn ⟨[], [], []⟩).trace = 1
    ∧ countPushes
        (create_workspace [("name", JsonVal.str "eng")] "w1" 0 true ⟨[], [], []⟩).trace
        = 0 := by
  have h := only_host_create_delete_push (fun _ => none)
    [("display_name", JsonVal.str "web-1")] [("name", JsonVal.str "grp")]
    [("name", JsonVal.str "eng")] [("name", JsonVal.str "admin")] []
    "h2" "h1" "g1" "w1" "w2" "r1" 0 true RemoteOutcome.exn
    ⟨[], [], []⟩ ⟨[("h1", ⟨"h1", .obj [], .str "web-1", .null, 0, 0⟩)], [], []⟩
    ⟨[], [], []⟩ ⟨[], [], []⟩ (by rfl) (by rfl)
  exact ⟨by rfl, by rfl, h.1, h.2.2.2.2.1⟩

/-- C9, counterexample: the push timeout is not configurable.  With every
environment variable set to "30" the configured base URL does change, but
both pushes are still issued with timeout 5 — the 5-second timeout is a
hard-coded literal, not a default. -/
theorem push_timeout_not_configurable_cex :
    (createHostPush (fun _ => some "30") "h1" (JsonVal.str "web-1") JsonVal.null
        (JsonVal.obj [])).timeout = 5
    ∧ (deleteHostPush (fun _ => some "30") "h1").timeout = 5
    ∧ kesselUrl (fun _ => some "30") ≠ kesselUrl (fun _ => none) := by
  exact ⟨by rfl, by rfl, by decide⟩

/-- C9 as amended: every direct remote push is made with a bounded timeout
fixed at 5 seconds whatever the environment, and the direct path never
retries — on every path of `create_host` and `delete_host` at most one push
is started. -/
theorem push_timeout_fixed_no_retry
    (env : Env) (host_id : String) (dn wid cf : JsonVal) (data : JsonDict)
    (now : Nat) (dbOk : Bool) (remote : RemoteOutcome) (idb : InventoryDB) :
    (createHostPush env host_id dn wid cf).timeout = 5
    ∧ (deleteHostPush env host_id).timeout = 5
    ∧ countPushes (create_host env data host_id now dbOk remote idb).trace ≤ 1
    ∧ countPushes (delete_host env host_id dbOk remote idb).trace ≤ 1 := by
  refine ⟨rfl, rfl, ?_, ?_⟩
  · cases hdn2 : truthy (jget data "display_name") <;> cases dbOk <;>
      simp [create_host, countPushes, hdn2, Act.isPushStart]
  · cases hl : (List.lookup host_id idb.hosts).isNone <;> cases dbOk <;>
      simp [delete_host, countPushes, hl, Act.isPushStart]
